import Mathlib

/-!
Shallow embedding of `aio_georss_client/feed.py` (class `GeoRssFeed`).

Modelling conventions:
* Timestamps (`datetime`) are modelled as `Nat` (only their total order matters).
* Distances and the radius (`float`) are modelled as `ℚ`: the code only
  compares them with `<=` and tests Python truthiness (`0.0` is falsy),
  both of which `ℚ` represents faithfully for the values the claims range over.
* Categories are `Option String` (an entry's category may be `None`, and a
  Python set may contain `None`); the configured category set is a list with
  membership semantics.
* The aiohttp session, the HTTP response and the XML parser are external
  collaborators: the network is an oracle value `RequestOutcome`, decoding is
  an oracle function `text_of`, and `XmlParser.parse` is an oracle function
  `parse` returning `Except Unit (Option (FeedData α))` — `Except.error`
  models the parser raising an exception, `Except.ok none` models it
  returning `None` (the defensive "(OK, null)" case of the spec).
* Python exceptions escaping a call are modelled with `Except PyExn`.
-/

/-- Domain entry as produced by the abstract entry factory `_new_entry`:
geometry (nullable), distance-to-home, category (nullable), published
timestamp (nullable). -/
structure Entry where
  geometry : Option Nat
  distance_to_home : ℚ
  category : Option String
  published : Option Nat
  deriving DecidableEq

/-- Parsed feed object as delivered by the external XML parser: an author
field and an ordered list of raw entry records of type `α`. -/
structure FeedData (α : Type) where
  author : Option String
  entries : List α
  deriving DecidableEq

/-- Client state of `GeoRssFeed.__init__` plus the two attributes
(`self.parser`, `self.feed_data`) assigned inside `_fetch` on success
(modelled as `Option`, initially `none` for "attribute not yet set"). -/
structure GeoRssFeed (α : Type) where
  websession : Nat
  home_coordinates : ℚ × ℚ
  filter_radius : Option ℚ
  filter_categories : Option (List (Option String))
  url : String
  last_timestamp : Option Nat
  parser : Option Unit
  feed_data : Option (FeedData α)
  deriving DecidableEq

/-- Update status constants `UPDATE_OK`, `UPDATE_OK_NO_DATA`, `UPDATE_ERROR`
from `consts.py` (three distinct opaque values). -/
inductive UpdateStatus where
  | ok
  | okNoData
  | error
  deriving DecidableEq

/-- Outcome of the HTTP request, as observed by `_fetch`: an aiohttp
`ClientError` while requesting, an `asyncio.TimeoutError`, or a response
carrying an HTTP status code, raw body bytes and a declared encoding. -/
inductive RequestOutcome where
  | clientError
  | timeoutError
  | response (status : Nat) (content : List Nat) (encoding : String)
  deriving DecidableEq

/-- Python exceptions that can escape `update()` in this model. -/
inductive PyExn where
  | parseError
  deriving DecidableEq

/-- HTTP response view used by `_pre_process_response`: raw body bytes and
the encoding the decoder will use. -/
structure Response where
  content : List Nat
  encoding : String
  deriving DecidableEq

/-- Bytes of `codecs.BOM_UTF8` (0xEF 0xBB 0xBF). -/
def BOM_UTF8 : List Nat := [239, 187, 191]

/-- Model of Python `bytes.startswith`: does the first list start with the
second one? -/
def startsWith : List Nat → List Nat → Bool
  | _, [] => true
  | [], _ :: _ => false
  | a :: as, b :: bs => a == b && startsWith as bs

/-- Embedding of `_pre_process_response`: if the raw payload begins with the
UTF-8 byte order mark, force the encoding to `"utf-8-sig"`; otherwise leave
the response untouched. -/
def pre_process_response (response : Response) : Response :=
  if startsWith response.content BOM_UTF8 then
    { response with encoding := "utf-8-sig" }
  else
    response

/-- Embedding of `_filter_entries`: always drop entries without geometry;
then, if the radius filter is truthy (set and nonzero), keep entries with
`distance_to_home <= radius`; then, if the category filter is truthy (set
and nonempty), keep entries whose category is a member of the set. -/
def filter_entries (filter_radius : Option ℚ)
    (filter_categories : Option (List (Option String)))
    (entries : List Entry) : List Entry :=
  let filtered1 := entries.filter fun entry => entry.geometry.isSome
  let filtered2 :=
    match filter_radius with
    | some radius =>
        if radius ≠ 0 then
          filtered1.filter fun entry => decide (entry.distance_to_home ≤ radius)
        else
          filtered1
    | none => filtered1
  match filter_categories with
  | some categories =>
      if categories ≠ [] then
        filtered2.filter fun entry => decide (entry.category ∈ categories)
      else
        filtered2
  | none => filtered2

/-- Embedding of `_extract_from_feed`: the global metadata dict holds the
attribution string exactly when the feed's author field is truthy (present
and not the empty string). -/
def extract_from_feed (feed : FeedData α) : Option String :=
  match feed.author with
  | some author => if author ≠ "" then some author else none
  | none => none

/-- Insertion step of the descending sort modelling Python
`sorted(..., reverse=True)`. -/
def insertDesc (a : Nat) : List Nat → List Nat
  | [] => [a]
  | b :: bs => if b ≤ a then a :: b :: bs else b :: insertDesc a bs

/-- Model of Python `sorted(..., reverse=True)` on timestamps: an insertion
sort into descending order.  On `Nat` the descending-sorted permutation of a
list is unique, so any correct sort (Python uses a stable one) yields this
very list. -/
def sortDesc : List Nat → List Nat
  | [] => []
  | a :: as => insertDesc a (sortDesc as)

/-- Embedding of `_extract_last_timestamp`: if the entry list is truthy,
collect the truthy published timestamps, sort descending, and return the
first if any; in every other case return `None`. -/
def extract_last_timestamp (feed_entries : List Entry) : Option Nat :=
  if feed_entries.isEmpty then
    none
  else
    (sortDesc (feed_entries.filterMap Entry.published)).head?

/-- Entry construction loop of `update()`: one `_new_entry` call per raw
record, in feed order, all sharing the global metadata of the feed. -/
def new_entries (new_entry : ℚ × ℚ → α → Option String → Entry)
    (home_coordinates : ℚ × ℚ) (data : FeedData α) : List Entry :=
  data.entries.map fun rss_entry =>
    new_entry home_coordinates rss_entry (extract_from_feed data)

/-- Dispatch of `update()` on the result of `_fetch` (lines 56-76 of
`feed.py`): on `UPDATE_OK` with truthy data, build, filter, overwrite
`last_timestamp` with the extraction result and return the filtered
entries; on `UPDATE_OK` without data, `UPDATE_OK_NO_DATA` and
`UPDATE_ERROR`, return `None` entries and leave the state untouched. -/
def update_dispatch (new_entry : ℚ × ℚ → α → Option String → Entry)
    (feed : GeoRssFeed α) (status : UpdateStatus)
    (data : Option (FeedData α)) :
    GeoRssFeed α × UpdateStatus × Option (List Entry) :=
  match status, data with
  | UpdateStatus.ok, some d =>
      let filtered_entries :=
        filter_entries feed.filter_radius feed.filter_categories
          (new_entries new_entry feed.home_coordinates d)
      ({ feed with last_timestamp := extract_last_timestamp filtered_entries },
        UpdateStatus.ok, some filtered_entries)
  | UpdateStatus.ok, none => (feed, UpdateStatus.ok, none)
  | UpdateStatus.okNoData, _ => (feed, UpdateStatus.okNoData, none)
  | UpdateStatus.error, _ => (feed, UpdateStatus.error, none)

/-- Embedding of `_fetch`: a transport `ClientError` or a timeout is caught
and mapped to `(UPDATE_ERROR, None)`; on a response, `raise_for_status`
turns HTTP status `>= 400` into a `ClientError` caught by the inner handler;
otherwise the response is pre-processed, decoded by the oracle `text_of` and
handed to the parser oracle.  A parser exception is not a `ClientError`, so
it propagates (`Except.error`); on parser success the attributes
`self.parser` and `self.feed_data` are assigned and `(UPDATE_OK, feed_data)`
is returned. -/
def fetch (text_of : Response → String)
    (parse : String → Except Unit (Option (FeedData α)))
    (request_outcome : RequestOutcome) (feed : GeoRssFeed α) :
    Except PyExn (GeoRssFeed α × UpdateStatus × Option (FeedData α)) :=
  match request_outcome with
  | RequestOutcome.clientError =>
      Except.ok (feed, UpdateStatus.error, none)
  | RequestOutcome.timeoutError =>
      Except.ok (feed, UpdateStatus.error, none)
  | RequestOutcome.response status content encoding =>
      if 400 ≤ status then
        Except.ok (feed, UpdateStatus.error, none)
      else
        let response := pre_process_response
          { content := content, encoding := encoding }
        match parse (text_of response) with
        | Except.error _ => Except.error PyExn.parseError
        | Except.ok feed_data =>
            Except.ok
              ({ feed with parser := some (), feed_data := feed_data },
                UpdateStatus.ok, feed_data)

/-- Embedding of `update()`: run `_fetch` (an escaping exception
propagates) and dispatch on its result. -/
def update (new_entry : ℚ × ℚ → α → Option String → Entry)
    (text_of : Response → String)
    (parse : String → Except Unit (Option (FeedData α)))
    (request_outcome : RequestOutcome) (feed : GeoRssFeed α) :
    Except PyExn (GeoRssFeed α × UpdateStatus × Option (List Entry)) :=
  match fetch text_of parse request_outcome feed with
  | Except.error e => Except.error e
  | Except.ok (feed1, status, data) =>
      Except.ok (update_dispatch new_entry feed1 status data)

/-- Head of a descending insertion: the new maximum of head and element. -/
theorem head?_insertDesc (a : Nat) (l : List Nat) :
    (insertDesc a l).head? = some (l.head?.elim a (max a)) := by
  cases l with
  | nil => simp [insertDesc]
  | cons b bs =>
      by_cases h : b ≤ a
      · simp [insertDesc, h, Nat.max_eq_left h]
      · simp [insertDesc, h, Nat.max_eq_right (Nat.le_of_not_le h)]

/-- Head of the descending sort is the maximum of the list. -/
theorem head?_sortDesc (l : List Nat) : (sortDesc l).head? = l.max? := by
  induction l with
  | nil => rfl
  | cons a as ih => simp [sortDesc, head?_insertDesc, ih]

-- Sanity checks of the embedding on concrete inputs (Scenario A and D style).

example :
    filter_entries (some 50) none
      [⟨none, 5, none, none⟩, ⟨some 1, 10, none, none⟩,
        ⟨some 2, 80, none, none⟩] =
      [⟨some 1, 10, none, none⟩] := by decide

example :
    extract_last_timestamp
      [⟨some 1, 0, none, some 3⟩, ⟨some 2, 0, none, some 7⟩] = some 7 := by
  decide

example : extract_last_timestamp [⟨some 1, 0, none, none⟩] = none := by decide

example :
    pre_process_response { content := [239, 187, 191, 60], encoding := "latin-1" } =
      { content := [239, 187, 191, 60], encoding := "utf-8-sig" } := by decide

-- Concrete fixtures used by witnesses and counterexamples.

/-- Concrete client: no filters, prior `last_timestamp` of `some 5`. -/
def feed0 : GeoRssFeed Entry :=
  { websession := 0, home_coordinates := (0, 0), filter_radius := none,
    filter_categories := none, url := "http://example.org/feed",
    last_timestamp := some 5, parser := none, feed_data := none }

/-- Concrete entry with geometry, a category and a published timestamp. -/
def entryA : Entry := ⟨some 1, 3, some "cat", some 7⟩

/-- Concrete entry with geometry but no published timestamp. -/
def entryNoTime : Entry := ⟨some 1, 3, none, none⟩

/-- Entry factory for fixtures: raw records are already entries. -/
def new_entry_id : ℚ × ℚ → Entry → Option String → Entry := fun _ e _ => e

/-- Decoding oracle for fixtures. -/
def text_of0 : Response → String := fun _ => "<feed/>"

/-- Parser oracle yielding a one-entry feed with a timestamped entry. -/
def parseA : String → Except Unit (Option (FeedData Entry)) :=
  fun _ => Except.ok (some ⟨some "author", [entryA]⟩)

/-- Parser oracle yielding a one-entry feed whose entry has no timestamp. -/
def parseNoTime : String → Except Unit (Option (FeedData Entry)) :=
  fun _ => Except.ok (some ⟨none, [entryNoTime]⟩)

/-- Parser oracle that raises on every input (malformed payload). -/
def parseFail : String → Except Unit (Option (FeedData Entry)) :=
  fun _ => Except.error ()

/-- Successful HTTP response fixture (status 200). -/
def respOK : RequestOutcome := RequestOutcome.response 200 [60, 102] "utf-8"

-- Claim theorems.

/-- Claim C6: for every filtered entry list in which at least one entry has a
published timestamp, `_extract_last_timestamp` returns exactly the maximum of
the published timestamps of the entries that have one. -/
theorem extract_last_timestamp_eq_max (feed_entries : List Entry)
    (h : feed_entries.filterMap Entry.published ≠ []) :
    extract_last_timestamp feed_entries =
      (feed_entries.filterMap Entry.published).max? := by
  cases feed_entries with
  | nil => simp at h
  | cons e es => simp [extract_last_timestamp, head?_sortDesc]

/-- Witness for C6 at a two-entry list with timestamps 3 and 7. -/
theorem extract_last_timestamp_eq_max_witness :
    ([⟨some 1, 0, none, some 3⟩, ⟨some 2, 0, none, some 7⟩] :
        List Entry).filterMap Entry.published ≠ [] ∧
      extract_last_timestamp
          [⟨some 1, 0, none, some 3⟩, ⟨some 2, 0, none, some 7⟩] =
        (([⟨some 1, 0, none, some 3⟩, ⟨some 2, 0, none, some 7⟩] :
          List Entry).filterMap Entry.published).max? :=
  ⟨by decide, extract_last_timestamp_eq_max _ (by decide)⟩

/-- Claim C2: when `_fetch` reports `UPDATE_OK_NO_DATA` (a not-modified
indication from the server), `update()` returns `(UPDATE_OK_NO_DATA, None)`
and the client state — in particular `last_timestamp` — is unchanged. -/
theorem update_dispatch_ok_no_data
    (new_entry : ℚ × ℚ → α → Option String → Entry) (feed : GeoRssFeed α)
    (data : Option (FeedData α)) :
    update_dispatch new_entry feed UpdateStatus.okNoData data =
      (feed, UpdateStatus.okNoData, none) := by
  cases data <;> rfl

/-- Claim C7: if the raw payload begins with the UTF-8 byte order mark, the
pre-processing step forces the encoding to `"utf-8-sig"` whatever the
declared encoding was; otherwise the response is left exactly as-is. -/
theorem pre_process_response_bom (response : Response) :
    (startsWith response.content BOM_UTF8 = true →
      pre_process_response response =
        { response with encoding := "utf-8-sig" }) ∧
      (startsWith response.content BOM_UTF8 = false →
        pre_process_response response = response) := by
  constructor <;> intro h <;> simp [pre_process_response, h]

/-- Witness for C7: a BOM payload with declared encoding `"latin-1"` is
forced to `"utf-8-sig"`, and a BOM-free payload is left untouched. -/
theorem pre_process_response_bom_witness :
    (startsWith [239, 187, 191, 60] BOM_UTF8 = true ∧
      pre_process_response { content := [239, 187, 191, 60], encoding := "latin-1" } =
        { content := [239, 187, 191, 60], encoding := "utf-8-sig" }) ∧
      (startsWith [60, 102] BOM_UTF8 = false ∧
        pre_process_response { content := [60, 102], encoding := "latin-1" } =
          { content := [60, 102], encoding := "latin-1" }) :=
  ⟨⟨by decide, (pre_process_response_bom _).1 (by decide)⟩,
    ⟨by decide, (pre_process_response_bom _).2 (by decide)⟩⟩

/-- Claim C9: a radius filter of `0` and an empty category filter set are
falsy, so the corresponding filter stage is skipped entirely — filtering
behaves exactly as if that filter were not configured, and with both filters
falsy every input entry with geometry passes. -/
theorem filter_entries_falsy_skip (filter_radius : Option ℚ)
    (filter_categories : Option (List (Option String)))
    (entries : List Entry) :
    filter_entries (some 0) filter_categories entries =
        filter_entries none filter_categories entries ∧
      filter_entries filter_radius (some []) entries =
        filter_entries filter_radius none entries ∧
      (∀ entry, entry ∈ entries → entry.geometry.isSome = true →
        entry ∈ filter_entries (some 0) (some []) entries) := by
  refine ⟨by simp [filter_entries], by simp [filter_entries], ?_⟩
  intro entry hmem hgeom
  simp [filter_entries, List.mem_filter, hmem, hgeom]

/-- Witness for C9: with radius `0` and an empty category set, an entry at
distance 3 with a category outside any set still passes. -/
theorem filter_entries_falsy_skip_witness :
    entryA ∈ filter_entries (some 0) (some []) [entryA] :=
  (filter_entries_falsy_skip (some 0) (some []) [entryA]).2.2 entryA
    (by decide) (by decide)

/-- Characterization of membership in the filtered list: an entry survives
`_filter_entries` exactly when it is an input entry with geometry that
passes every active (truthy) filter stage. -/
theorem mem_filter_entries_iff (filter_radius : Option ℚ)
    (filter_categories : Option (List (Option String)))
    (entries : List Entry) (entry : Entry) :
    entry ∈ filter_entries filter_radius filter_categories entries ↔
      entry ∈ entries ∧ entry.geometry.isSome = true ∧
        (∀ radius, filter_radius = some radius → radius ≠ 0 →
          entry.distance_to_home ≤ radius) ∧
        (∀ categories, filter_categories = some categories →
          categories ≠ [] → entry.category ∈ categories) := by
  rcases filter_radius with _ | radius <;>
    rcases filter_categories with _ | categories <;>
    simp only [filter_entries, List.mem_filter]
  · simp
  · by_cases hc : categories = [] <;>
      simp [hc, List.mem_filter, and_assoc] <;> tauto
  · by_cases hr : radius = 0 <;>
      simp [hr, List.mem_filter, and_assoc] <;> tauto
  · by_cases hr : radius = 0 <;> by_cases hc : categories = [] <;>
      simp [hr, hc, List.mem_filter, and_assoc] <;> tauto

/-- Claim C4: every entry returned by `_filter_entries` has non-null
geometry; with an active radius filter its distance-to-home is at most the
radius (boundary inclusive); with an active category filter set its category
is a member of the set (so a null category passes only when null is itself
in the set). -/
theorem filter_entries_invariants (filter_radius : Option ℚ)
    (filter_categories : Option (List (Option String)))
    (entries : List Entry) (entry : Entry)
    (h : entry ∈ filter_entries filter_radius filter_categories entries) :
    entry.geometry ≠ none ∧
      (∀ radius, filter_radius = some radius → radius ≠ 0 →
        entry.distance_to_home ≤ radius) ∧
      (∀ categories, filter_categories = some categories → categories ≠ [] →
        entry.category ∈ categories) := by
  obtain ⟨-, hgeom, hrad, hcat⟩ :=
    (mem_filter_entries_iff filter_radius filter_categories entries entry).mp h
  exact ⟨Option.isSome_iff_ne_none.mp hgeom, hrad, hcat⟩

/-- Witness for C4: an entry at distance 3 with category `"cat"` survives a
radius-5, category-{"cat"} filter and satisfies all three invariants. -/
theorem filter_entries_invariants_witness :
    entryA ∈ filter_entries (some 5) (some [some "cat"]) [entryA] ∧
      (entryA.geometry ≠ none ∧
        (∀ radius, (some 5 : Option ℚ) = some radius → radius ≠ 0 →
          entryA.distance_to_home ≤ radius) ∧
        (∀ categories,
          (some [some "cat"] : Option (List (Option String))) = some categories →
          categories ≠ [] → entryA.category ∈ categories)) :=
  ⟨by decide, filter_entries_invariants (some 5) (some [some "cat"]) [entryA]
    entryA (by decide)⟩

/-- Sublist fact behind C10: each filter stage yields a sublist, so the
whole filtered list is a sublist of the input entry list. -/
theorem filter_entries_sublist (filter_radius : Option ℚ)
    (filter_categories : Option (List (Option String)))
    (entries : List Entry) :
    List.Sublist (filter_entries filter_radius filter_categories entries)
      entries := by
  have base : List.Sublist (entries.filter fun e => e.geometry.isSome) entries :=
    List.filter_sublist entries
  rcases filter_radius with _ | radius <;>
    rcases filter_categories with _ | categories <;>
    simp only [filter_entries]
  · exact base
  · split_ifs with hc
    · exact List.Sublist.trans (List.filter_sublist _) base
    · exact base
  · split_ifs with hr
    · exact List.Sublist.trans (List.filter_sublist _) base
    · exact base
  · split_ifs with hr hc
    · exact List.Sublist.trans (List.filter_sublist _)
        (List.Sublist.trans (List.filter_sublist _) base)
    · exact List.Sublist.trans (List.filter_sublist _) base
    · exact List.Sublist.trans (List.filter_sublist _) base
    · exact base

/-- State of `feed0` after the OK run delivering only `entryNoTime`: the
extraction finds no timestamp, so `last_timestamp` is assigned `none`. -/
def feed0_afterNoTime : GeoRssFeed Entry :=
  { feed0 with
    last_timestamp := none
    parser := some ()
    feed_data := some ⟨none, [entryNoTime]⟩ }

/-- State of `feed0` after the OK run delivering only `entryA`. -/
def feed0_afterA : GeoRssFeed Entry :=
  { feed0 with
    last_timestamp := some 7
    parser := some ()
    feed_data := some ⟨some "author", [entryA]⟩ }

/-- Case analysis of a run of `update()` that returns (does not raise):
either an error path with the state untouched, or the parser returned
`None` (attributes assigned, no entries), or the full OK path with the
filtered entries and the overwritten `last_timestamp`. -/
theorem update_run_cases {α : Type}
    (new_entry : ℚ × ℚ → α → Option String → Entry)
    (text_of : Response → String)
    (parse : String → Except Unit (Option (FeedData α)))
    (request_outcome : RequestOutcome) (feed feed1 : GeoRssFeed α)
    (status : UpdateStatus) (lopt : Option (List Entry))
    (h : update new_entry text_of parse request_outcome feed =
      Except.ok (feed1, status, lopt)) :
    (feed1 = feed ∧ status = UpdateStatus.error ∧ lopt = none) ∨
      (feed1 = { feed with parser := some (), feed_data := none } ∧
        status = UpdateStatus.ok ∧ lopt = none) ∨
      (∃ d : FeedData α,
        feed1 = { feed with
                  parser := some ()
                  feed_data := some d
                  last_timestamp := extract_last_timestamp
                    (filter_entries feed.filter_radius feed.filter_categories
                      (new_entries new_entry feed.home_coordinates d)) } ∧
        status = UpdateStatus.ok ∧
        lopt = some (filter_entries feed.filter_radius feed.filter_categories
          (new_entries new_entry feed.home_coordinates d))) := by
  cases request_outcome with
  | clientError =>
      simp only [update, fetch, update_dispatch, Except.ok.injEq,
        Prod.mk.injEq] at h
      obtain ⟨rfl, rfl, rfl⟩ := h
      exact Or.inl ⟨rfl, rfl, rfl⟩
  | timeoutError =>
      simp only [update, fetch, update_dispatch, Except.ok.injEq,
        Prod.mk.injEq] at h
      obtain ⟨rfl, rfl, rfl⟩ := h
      exact Or.inl ⟨rfl, rfl, rfl⟩
  | response s c e =>
      by_cases hs : 400 ≤ s
      · simp only [update, fetch, update_dispatch, hs, if_true,
          Except.ok.injEq, Prod.mk.injEq] at h
        obtain ⟨rfl, rfl, rfl⟩ := h
        exact Or.inl ⟨rfl, rfl, rfl⟩
      · cases hp : parse (text_of (pre_process_response
            { content := c, encoding := e })) with
        | error u =>
            simp only [update, fetch, hs, if_false, hp] at h
            exact Except.noConfusion h
        | ok fd =>
            cases fd with
            | none =>
                simp only [update, fetch, update_dispatch, hs, if_false, hp,
                  Except.ok.injEq, Prod.mk.injEq] at h
                obtain ⟨rfl, rfl, rfl⟩ := h
                exact Or.inr (Or.inl ⟨rfl, rfl, rfl⟩)
            | some d =>
                simp only [update, fetch, update_dispatch, hs, if_false, hp,
                  Except.ok.injEq, Prod.mk.injEq] at h
                obtain ⟨rfl, rfl, rfl⟩ := h
                exact Or.inr (Or.inr ⟨d, rfl, rfl, rfl⟩)

/-- Claim C1 (amended): on every returning run of `update()`, the new
`last_timestamp` is the extraction result of the returned filtered entries
when entries are returned — which is `none` when no surviving entry has a
timestamp, so the field can be cleared or move backwards — and the prior
value when no entries are returned. -/
theorem update_last_timestamp_overwrite {α : Type}
    (new_entry : ℚ × ℚ → α → Option String → Entry)
    (text_of : Response → String)
    (parse : String → Except Unit (Option (FeedData α)))
    (request_outcome : RequestOutcome) (feed feed1 : GeoRssFeed α)
    (status : UpdateStatus) (lopt : Option (List Entry))
    (h : update new_entry text_of parse request_outcome feed =
      Except.ok (feed1, status, lopt)) :
    (∀ l, lopt = some l → feed1.last_timestamp = extract_last_timestamp l) ∧
      (lopt = none → feed1.last_timestamp = feed.last_timestamp) := by
  rcases update_run_cases new_entry text_of parse request_outcome feed feed1
      status lopt h with
    ⟨rfl, -, rfl⟩ | ⟨rfl, -, rfl⟩ | ⟨d, rfl, -, rfl⟩
  · exact ⟨fun l hl => Option.noConfusion hl, fun _ => rfl⟩
  · exact ⟨fun l hl => Option.noConfusion hl, fun _ => rfl⟩
  · refine ⟨fun l hl => ?_, fun hc => Option.noConfusion hc⟩
    obtain rfl := Option.some.inj hl
    rfl

/-- Witness for the amended C1 at the run that delivers one timestamp-free
entry: the new `last_timestamp` is the extraction result of that list. -/
theorem update_last_timestamp_overwrite_witness :
    update new_entry_id text_of0 parseNoTime respOK feed0 =
        Except.ok (feed0_afterNoTime, UpdateStatus.ok, some [entryNoTime]) ∧
      feed0_afterNoTime.last_timestamp = extract_last_timestamp [entryNoTime] :=
  ⟨rfl, (update_last_timestamp_overwrite new_entry_id text_of0 parseNoTime
    respOK feed0 feed0_afterNoTime UpdateStatus.ok (some [entryNoTime])
    rfl).1 [entryNoTime] rfl⟩

/-- Counterexample to C1 as stated: starting from `last_timestamp = some 5`,
an OK update whose only surviving entry has no published timestamp clears
`last_timestamp` to `none` instead of retaining the prior value. -/
theorem update_clears_last_timestamp :
    feed0.last_timestamp = some 5 ∧
      update new_entry_id text_of0 parseNoTime respOK feed0 =
        Except.ok (feed0_afterNoTime, UpdateStatus.ok, some [entryNoTime]) ∧
      feed0_afterNoTime.last_timestamp = none :=
  ⟨rfl, rfl, rfl⟩

/-- Claim C5: on a transport client error, a timeout, or an HTTP status in
the error range, `update()` returns `(UPDATE_ERROR, None)` and the client
state — in particular `last_timestamp` — is exactly the state before the
call. -/
theorem update_transport_failure {α : Type}
    (new_entry : ℚ × ℚ → α → Option String → Entry)
    (text_of : Response → String)
    (parse : String → Except Unit (Option (FeedData α)))
    (request_outcome : RequestOutcome) (feed : GeoRssFeed α)
    (h : request_outcome = RequestOutcome.clientError ∨
      request_outcome = RequestOutcome.timeoutError ∨
      ∃ s c e, request_outcome = RequestOutcome.response s c e ∧ 400 ≤ s) :
    update new_entry text_of parse request_outcome feed =
      Except.ok (feed, UpdateStatus.error, none) := by
  rcases h with rfl | rfl | ⟨s, c, e, rfl, hs⟩
  · rfl
  · rfl
  · simp [update, fetch, update_dispatch, hs]

/-- Witness for C5 at a connection failure against the concrete client. -/
theorem update_transport_failure_witness :
    (RequestOutcome.clientError = RequestOutcome.clientError ∨
      RequestOutcome.clientError = RequestOutcome.timeoutError ∨
      ∃ s c e, RequestOutcome.clientError = RequestOutcome.response s c e ∧
        400 ≤ s) ∧
      update new_entry_id text_of0 parseA RequestOutcome.clientError feed0 =
        Except.ok (feed0, UpdateStatus.error, none) :=
  ⟨Or.inl rfl, update_transport_failure new_entry_id text_of0 parseA
    RequestOutcome.clientError feed0 (Or.inl rfl)⟩

/-- Claim C3 (amended): transport failures are folded into `UPDATE_ERROR`,
but a parser failure on a successful response is not caught — the handlers
around the parse step only catch transport client errors, so the parse
exception escapes `update()` to the caller. -/
theorem update_parse_failure_raises {α : Type}
    (new_entry : ℚ × ℚ → α → Option String → Entry)
    (text_of : Response → String)
    (parse : String → Except Unit (Option (FeedData α)))
    (s : Nat) (c : List Nat) (e : String) (feed : GeoRssFeed α)
    (hs : s < 400)
    (hp : parse (text_of (pre_process_response
      { content := c, encoding := e })) = Except.error ()) :
    update new_entry text_of parse (RequestOutcome.response s c e) feed =
      Except.error PyExn.parseError := by
  have h4 : ¬ 400 ≤ s := Nat.not_le.mpr hs
  simp [update, fetch, h4, hp]

/-- Witness for the amended C3 at a 200 response whose body the parser
rejects. -/
theorem update_parse_failure_raises_witness :
    (200 < 400 ∧
      parseFail (text_of0 (pre_process_response
        { content := [60, 102], encoding := "utf-8" })) = Except.error ()) ∧
      update new_entry_id text_of0 parseFail
          (RequestOutcome.response 200 [60, 102] "utf-8") feed0 =
        Except.error PyExn.parseError :=
  ⟨⟨by decide, rfl⟩, update_parse_failure_raises new_entry_id text_of0
    parseFail 200 [60, 102] "utf-8" feed0 (by decide) rfl⟩

/-- Counterexample to C3 as stated: on a 200 response with a malformed body
the parse failure is not mapped to `UPDATE_ERROR` — `update()` raises. -/
theorem update_parse_exception_escapes :
    update new_entry_id text_of0 parseFail respOK feed0 =
      Except.error PyExn.parseError := rfl

/-- Claim C8 (amended): `update()` never changes the configuration fields
(session, home coordinates, URL, radius filter, category filter); besides
`last_timestamp` it may however also assign `parser` and `feed_data`. -/
theorem update_config_unchanged {α : Type}
    (new_entry : ℚ × ℚ → α → Option String → Entry)
    (text_of : Response → String)
    (parse : String → Except Unit (Option (FeedData α)))
    (request_outcome : RequestOutcome) (feed feed1 : GeoRssFeed α)
    (status : UpdateStatus) (lopt : Option (List Entry))
    (h : update new_entry text_of parse request_outcome feed =
      Except.ok (feed1, status, lopt)) :
    feed1.websession = feed.websession ∧
      feed1.home_coordinates = feed.home_coordinates ∧
      feed1.url = feed.url ∧
      feed1.filter_radius = feed.filter_radius ∧
      feed1.filter_categories = feed.filter_categories := by
  rcases update_run_cases new_entry text_of parse request_outcome feed feed1
      status lopt h with
    ⟨rfl, -, -⟩ | ⟨rfl, -, -⟩ | ⟨d, rfl, -, -⟩ <;>
    exact ⟨rfl, rfl, rfl, rfl, rfl⟩

/-- Witness for the amended C8 at the successful run delivering `entryA`. -/
theorem update_config_unchanged_witness :
    update new_entry_id text_of0 parseA respOK feed0 =
        Except.ok (feed0_afterA, UpdateStatus.ok, some [entryA]) ∧
      (feed0_afterA.websession = feed0.websession ∧
        feed0_afterA.home_coordinates = feed0.home_coordinates ∧
        feed0_afterA.url = feed0.url ∧
        feed0_afterA.filter_radius = feed0.filter_radius ∧
        feed0_afterA.filter_categories = feed0.filter_categories) :=
  ⟨rfl, update_config_unchanged new_entry_id text_of0 parseA respOK feed0
    feed0_afterA UpdateStatus.ok (some [entryA]) rfl⟩

/-- Counterexample to C8 as stated: a successful `update()` run also
mutates the `parser` and `feed_data` attributes, not only
`last_timestamp`. -/
theorem update_mutates_more_than_last_timestamp :
    feed0.parser = none ∧ feed0.feed_data = none ∧
      update new_entry_id text_of0 parseA respOK feed0 =
        Except.ok (feed0_afterA, UpdateStatus.ok, some [entryA]) ∧
      feed0_afterA.parser = some () ∧
      feed0_afterA.feed_data = some ⟨some "author", [entryA]⟩ :=
  ⟨rfl, rfl, rfl, rfl, rfl⟩

/-- Claim C10: the filtered list is a sublist (subsequence, order
preserved) of its input, and every entry list returned by `update()` is a
sublist of the entries constructed from the fetched feed's records in feed
order. -/
theorem filter_entries_subsequence_update_order :
    (∀ (filter_radius : Option ℚ)
        (filter_categories : Option (List (Option String)))
        (entries : List Entry),
      List.Sublist (filter_entries filter_radius filter_categories entries)
        entries) ∧
      (∀ (α : Type) (new_entry : ℚ × ℚ → α → Option String → Entry)
          (text_of : Response → String)
          (parse : String → Except Unit (Option (FeedData α)))
          (request_outcome : RequestOutcome) (feed feed1 : GeoRssFeed α)
          (status : UpdateStatus) (l : List Entry),
        update new_entry text_of parse request_outcome feed =
            Except.ok (feed1, status, some l) →
        ∃ d : FeedData α, feed1.feed_data = some d ∧
          List.Sublist l (new_entries new_entry feed.home_coordinates d)) := by
  refine ⟨filter_entries_sublist, ?_⟩
  intro α new_entry text_of parse request_outcome feed feed1 status l h
  rcases update_run_cases new_entry text_of parse request_outcome feed feed1
      status (some l) h with
    ⟨-, -, hx⟩ | ⟨-, -, hx⟩ | ⟨d, rfl, -, hx⟩
  · exact Option.noConfusion hx
  · exact Option.noConfusion hx
  · obtain rfl := Option.some.inj hx
    exact ⟨d, rfl, filter_entries_sublist _ _ _⟩

/-- Witness for C10 at the successful run delivering `entryA`. -/
theorem filter_entries_subsequence_update_order_witness :
    update new_entry_id text_of0 parseA respOK feed0 =
        Except.ok (feed0_afterA, UpdateStatus.ok, some [entryA]) ∧
      ∃ d : FeedData Entry, feed0_afterA.feed_data = some d ∧
        List.Sublist [entryA] (new_entries new_entry_id feed0.home_coordinates d) :=
  ⟨rfl, filter_entries_subsequence_update_order.2 Entry new_entry_id text_of0
    parseA respOK feed0 feed0_afterA UpdateStatus.ok [entryA] rfl⟩
